import Mathlib

/-!
Shallow embedding of the copperx-bot Telegram payment bot:
the per-user conversation session, the text-message dispatcher with its
deposit / authentication / transfer state machines, the Postgres-backed
session middleware, and the Pusher notification relay.
All definitions are transcribed from the TypeScript sources
(src/index.ts, src/middleware/session.ts, src/services/notifications.ts,
src/services/copperx-api.ts); API and parser effects are passed in as
explicit parameters so handlers stay pure and executable.
-/

namespace CopperxBot

/-- Transfer kinds stored in SessionData.transferType. -/
inductive TransferType
| email
| wallet
| bank
deriving DecidableEq, Repr

/-- Steps of the transfer state machine stored in SessionData.transferStep. -/
inductive TransferStep
| recipient
| address
| amount
| bank_details
| customer_details
| customer_email
| customer_country
| source_salary
| source_savings
| source_lottery
| source_investment
| source_loan
| source_business_income
| source_others
| accept_quote
| cancel_quote
| select_bank
deriving DecidableEq, Repr

/-- Command kind stored in SessionData.commandType. -/
inductive CommandType
| send
| withdraw
deriving DecidableEq, Repr

/-- The only deposit step value used by the code. -/
inductive DepositStep
| amount
deriving DecidableEq, Repr

/-- SessionData from src/types.ts: every field is optional; an absent field is
modelled as none. A JS field that is present with value false (for example
awaitingEmail after a failed OTP request) is modelled as some false.
Amount strings are modelled as exact rationals. -/
structure Session where
  authToken : Option String := none
  organizationId : Option String := none
  email : Option String := none
  awaitingEmail : Option Bool := none
  awaitingOTP : Option Bool := none
  sid : Option String := none
  transferType : Option TransferType := none
  transferStep : Option TransferStep := none
  transferRecipient : Option String := none
  transferAddress : Option String := none
  network : Option String := none
  commandType : Option CommandType := none
  transferAmount : Option ℚ := none
  sourceOfFunds : Option String := none
  customerName : Option String := none
  customerEmail : Option String := none
  customerCountry : Option String := none
  depositStep : Option DepositStep := none
  depositSourceOfFunds : Option String := none
  quotePayload : Option String := none
  quoteSignature : Option String := none
  arrivalTimeMessage : Option String := none
  selectedBankId : Option String := none
deriving DecidableEq, Repr

/-- The empty session, as produced by ctx.session being the empty object. -/
def Session.empty : Session := {}

/-- JS truthiness of an optional string field: present and nonempty. -/
def strTruthy : Option String → Bool
| none => false
| some s => !s.data.isEmpty

/-- JS truthiness of an optional boolean field. -/
def boolTruthy : Option Bool → Bool
| none => false
| some b => b

/-- Error classification used by the catch blocks: axios errors carry an HTTP
status (401, 422, 429 or some other status); nonAxios stands for any thrown
value that is not an axios error (for example a TypeError). -/
inductive ApiError
| unauthorized
| unprocessable
| rateLimited
| otherAxios
| nonAxios
deriving DecidableEq, Repr

/-- Outbound chat messages, one constructor per distinct reply text of the
handlers under study. -/
inductive Msg
| enterValidAmount
| minDeposit1
| depositSuccess
| depositInvalidDetails
| depositFailed
| unexpectedError
| sessionExpired
| enterValidEmail
| otpSent
| tooManyAttempts
| invalidEmail422
| failedToSendOtp
| enterOtpInvalid
| loginSuccess
| invalidOrExpiredOtp
| authFailed
| minWithdraw100
| couldNotFetchBalance
| insufficientBalance
| sentToEmailSuccess
| networkNotSelected
| sentToWalletSuccess
| withdrewToWalletSuccess
| selectSourceOfFunds
| invalidTransferDetails422
| failedToProcessTransfer
| amountNotFound
| enterFullName
| nameNotProvided
| enterEmailAddr
| emailNotProvided
| enterCountry
| noWalletFound
| sourceNotSelected
| bankWithdrawalSuccess
| bankWithdrawalFailed
| enterAmountPrompt
| enterValidWalletAddress
| notLoggedIn
| loggedOut
deriving DecidableEq, Repr

/-- A Payments API invocation issued by the handlers, with its payload. -/
inductive ApiCall
| requestEmailOTP (email : String)
| authenticateWithOTP (email otp sid : String)
| getWallets
| sendToEmail (recipient : String) (amount : ℚ)
| sendToWallet (address : String) (amount : ℚ)
| withdrawToWallet (address : String) (amount : ℚ) (network : String)
| withdrawToBank (amount : ℚ)
| deposit (amount : ℚ) (sourceOfFunds : String) (depositChainId : Nat)
deriving DecidableEq, Repr

/-- A wallet as returned by CopperxAPI.getWallets: the mapped object carries
isDefault and a USDC balance string (parsed here as a rational; none models
an absent or empty balance string). -/
structure Wallet where
  id : String
  isDefault : Bool
  balance : Option ℚ
deriving DecidableEq, Repr

/-- Outcomes of the external API endpoints for one inbound event, passed to
the handlers as an explicit environment. -/
structure ApiEnv where
  requestOtpRes : Except ApiError String := Except.error ApiError.nonAxios
  authRes : Except ApiError (String × String) := Except.error ApiError.nonAxios
  walletsRes : Except ApiError (List Wallet) := Except.error ApiError.nonAxios
  sendToEmailRes : Except ApiError Unit := Except.error ApiError.nonAxios
  sendToWalletRes : Except ApiError Unit := Except.error ApiError.nonAxios
  withdrawToWalletRes : Except ApiError Unit := Except.error ApiError.nonAxios
  withdrawToBankRes : Except ApiError Unit := Except.error ApiError.nonAxios
  depositRes : Except ApiError String := Except.error ApiError.nonAxios

/-- Result of processing one text update: the session after the handler, the
replies sent, and the API calls issued, in order. -/
structure TextOutcome where
  session : Session
  msgs : List Msg
  calls : List ApiCall
deriving Repr

/-- String prefix test over the underlying character list (the String library
functions are not kernel-reducible, so validations are stated over the
character data, which has the same meaning). -/
def strStartsWith (s pre : String) : Bool :=
  pre.data.isPrefixOf s.data

/-- The trim applied by the handlers to every text input: whitespace is
stripped from both ends of the character data. -/
def jsTrim (s : String) : String :=
  ⟨((s.data.dropWhile Char.isWhitespace).reverse.dropWhile Char.isWhitespace).reverse⟩

/-- Email shape validation used by the login and transfer flows:
the string contains an at sign and a dot. -/
def isValidEmailShape (s : String) : Bool :=
  s.data.contains '@' && s.data.contains '.'

/-- OTP shape validation: exactly six decimal digits. -/
def isSixDigitOtp (s : String) : Bool :=
  s.data.length = 6 && s.data.all Char.isDigit

/-- Wallet address validation used at the address step for every network:
starts with 0x and is exactly 42 characters long. -/
def isValidWalletAddress (s : String) : Bool :=
  strStartsWith s "0x" && s.data.length = 42

/-- The seven deletes of the transfer-amount cleanup and of the outer catch. -/
def clearTransferFields (s : Session) : Session :=
  { s with
    transferType := none
    transferStep := none
    transferRecipient := none
    transferAddress := none
    network := none
    commandType := none
    transferAmount := none }

/-- The seven deletes of the finally block of the customer_country case. -/
def clearBankWithdrawalFields (s : Session) : Session :=
  { s with
    transferType := none
    transferStep := none
    transferAmount := none
    sourceOfFunds := none
    customerName := none
    customerEmail := none
    customerCountry := none }

/-- The two deletes at the end of the deposit amount handler. -/
def clearDepositFields (s : Session) : Session :=
  { s with depositStep := none, depositSourceOfFunds := none }

/-- Guard of the deposit amount branch of the text handler. -/
def depositGuard (s : Session) : Bool :=
  (s.depositStep == some DepositStep.amount) && strTruthy s.depositSourceOfFunds

/-- Guard of the OTP branch of the text handler. -/
def otpGuard (s : Session) : Bool :=
  boolTruthy s.awaitingOTP && strTruthy s.email && strTruthy s.sid

/-- Deposit amount handler (index.ts, the depositStep branch of the text
handler): validates the parsed amount, scales it by ten to the eighth,
calls the deposit endpoint with chain id 1399811149, and deletes the two
deposit fields on every outcome; an HTTP 401 replaces the session with the
empty object first. -/
def depositAmountStep (pf : String → Option ℚ) (env : ApiEnv) (s : Session)
    (text : String) : TextOutcome :=
  match pf (jsTrim text) with
  | none => ⟨s, [Msg.enterValidAmount], []⟩
  | some a =>
    if a ≤ 0 then ⟨s, [Msg.enterValidAmount], []⟩
    else if a < 1 then ⟨s, [Msg.minDeposit1], []⟩
    else
      let amountInWei : ℚ := a * 10 ^ 8
      let call := ApiCall.deposit amountInWei (s.depositSourceOfFunds.getD "") 1399811149
      match env.depositRes with
      | Except.ok _ => ⟨clearDepositFields s, [Msg.depositSuccess], [call]⟩
      | Except.error ApiError.unauthorized =>
          ⟨clearDepositFields Session.empty, [Msg.sessionExpired], [call]⟩
      | Except.error ApiError.unprocessable =>
          ⟨clearDepositFields s, [Msg.depositInvalidDetails], [call]⟩
      | Except.error ApiError.nonAxios =>
          ⟨clearDepositFields s, [Msg.unexpectedError], [call]⟩
      | Except.error _ => ⟨clearDepositFields s, [Msg.depositFailed], [call]⟩

/-- Awaiting-email handler: validates the email shape, requests an OTP, and
sets the auth-flow markers; on failure awaitingEmail is set to false (the
key stays present with value false). -/
def awaitingEmailStep (env : ApiEnv) (s : Session) (text : String) : TextOutcome :=
  let email := jsTrim text
  if !(isValidEmailShape email) then ⟨s, [Msg.enterValidEmail], []⟩
  else
    match env.requestOtpRes with
    | Except.ok sid =>
        ⟨{ s with
            awaitingEmail := some false
            awaitingOTP := some true
            email := some email
            sid := some sid },
          [Msg.otpSent], [ApiCall.requestEmailOTP email]⟩
    | Except.error e =>
        let m := match e with
          | ApiError.rateLimited => Msg.tooManyAttempts
          | ApiError.unprocessable => Msg.invalidEmail422
          | ApiError.nonAxios => Msg.unexpectedError
          | _ => Msg.failedToSendOtp
        ⟨{ s with awaitingEmail := some false }, [m], [ApiCall.requestEmailOTP email]⟩

/-- Awaiting-OTP handler: validates the six-digit shape without contacting the
API; on a well-formed code it calls authenticateWithOTP, storing the token
and organization id on success and replacing the whole session with the
empty object on any failure. -/
def awaitingOtpStep (env : ApiEnv) (s : Session) (text : String) : TextOutcome :=
  let otp := jsTrim text
  if !(isSixDigitOtp otp) then ⟨s, [Msg.enterOtpInvalid], []⟩
  else
    let call := ApiCall.authenticateWithOTP (s.email.getD "") otp (s.sid.getD "")
    match env.authRes with
    | Except.ok (token, orgId) =>
        ⟨{ s with
            authToken := some token
            organizationId := some orgId
            awaitingOTP := none
            sid := none }, [Msg.loginSuccess], [call]⟩
    | Except.error e =>
        let m := match e with
          | ApiError.unprocessable => Msg.invalidOrExpiredOtp
          | ApiError.rateLimited => Msg.tooManyAttempts
          | ApiError.nonAxios => Msg.unexpectedError
          | _ => Msg.authFailed
        ⟨Session.empty, [m], [call]⟩

/-- Recipient step: stores the recipient email and advances to the amount step. -/
def recipientStep (s : Session) (text : String) : TextOutcome :=
  let email := jsTrim text
  if !(isValidEmailShape email) then ⟨s, [Msg.enterValidEmail], []⟩
  else ⟨{ s with
      transferRecipient := some email
      transferStep := some TransferStep.amount }, [Msg.enterAmountPrompt], []⟩

/-- Address step: the same EVM shape check for every selected network; an
invalid address re-prompts and leaves the session unchanged. -/
def addressStep (s : Session) (text : String) : TextOutcome :=
  let address := jsTrim text
  if !(isValidWalletAddress address) then ⟨s, [Msg.enterValidWalletAddress], []⟩
  else ⟨{ s with
      transferAddress := some address
      transferStep := some TransferStep.amount }, [Msg.enterAmountPrompt], []⟩

/-- The catch block of the transfer amount step: an HTTP 401 replaces the
session with the empty object; every path then deletes the seven transfer
fields. -/
def transferAmountCatch (s : Session) (e : ApiError) (calls : List ApiCall) : TextOutcome :=
  match e with
  | ApiError.unauthorized => ⟨clearTransferFields Session.empty, [Msg.sessionExpired], calls⟩
  | ApiError.unprocessable => ⟨clearTransferFields s, [Msg.invalidTransferDetails422], calls⟩
  | ApiError.nonAxios => ⟨clearTransferFields s, [Msg.unexpectedError], calls⟩
  | _ => ⟨clearTransferFields s, [Msg.failedToProcessTransfer], calls⟩

/-- Transfer amount step: validates the parsed amount against zero and the
100 USDC minimum, fetches wallets, checks the default wallet balance,
scales the amount by ten to the eighth, and dispatches on the transfer
type; the bank branch only stores the scaled amount and advances, all other
completed branches delete the seven transfer fields. -/
def transferAmountStep (pf : String → Option ℚ) (env : ApiEnv) (s : Session)
    (text : String) : TextOutcome :=
  match pf (jsTrim text) with
  | none => ⟨s, [Msg.enterValidAmount], []⟩
  | some a =>
    if a ≤ 0 then ⟨s, [Msg.enterValidAmount], []⟩
    else if a < 100 then ⟨s, [Msg.minWithdraw100], []⟩
    else
      match env.walletsRes with
      | Except.error e => transferAmountCatch s e [ApiCall.getWallets]
      | Except.ok ws =>
        match ws.find? (fun w => w.isDefault) <|> ws.head? with
        | none => transferAmountCatch s ApiError.nonAxios [ApiCall.getWallets]
        | some dw =>
          match dw.balance with
          | none => ⟨s, [Msg.couldNotFetchBalance], [ApiCall.getWallets]⟩
          | some bal =>
            if a > bal then ⟨s, [Msg.insufficientBalance], [ApiCall.getWallets]⟩
            else
              let amount : ℚ := a * 10 ^ 8
              if s.transferType = some TransferType.email ∧
                  strTruthy s.transferRecipient = true then
                let call := ApiCall.sendToEmail (s.transferRecipient.getD "") amount
                match env.sendToEmailRes with
                | Except.ok _ =>
                    ⟨clearTransferFields s, [Msg.sentToEmailSuccess], [ApiCall.getWallets, call]⟩
                | Except.error e => transferAmountCatch s e [ApiCall.getWallets, call]
              else if s.transferType = some TransferType.wallet ∧
                  strTruthy s.transferAddress = true then
                if strTruthy s.network = false then
                  ⟨s, [Msg.networkNotSelected], [ApiCall.getWallets]⟩
                else if s.commandType = some CommandType.send then
                  let call := ApiCall.sendToWallet (s.transferAddress.getD "") amount
                  match env.sendToWalletRes with
                  | Except.ok _ =>
                      ⟨clearTransferFields s, [Msg.sentToWalletSuccess], [ApiCall.getWallets, call]⟩
                  | Except.error e => transferAmountCatch s e [ApiCall.getWallets, call]
                else if s.commandType = some CommandType.withdraw then
                  let call := ApiCall.withdrawToWallet (s.transferAddress.getD "") amount
                    (s.network.getD "")
                  match env.withdrawToWalletRes with
                  | Except.ok _ =>
                      ⟨clearTransferFields s, [Msg.withdrewToWalletSuccess],
                        [ApiCall.getWallets, call]⟩
                  | Except.error e => transferAmountCatch s e [ApiCall.getWallets, call]
                else ⟨clearTransferFields s, [], [ApiCall.getWallets]⟩
              else if s.transferType = some TransferType.bank then
                ⟨{ s with
                    transferAmount := some amount
                    transferStep := some TransferStep.bank_details },
                  [Msg.selectSourceOfFunds], [ApiCall.getWallets]⟩
              else ⟨clearTransferFields s, [], [ApiCall.getWallets]⟩

/-- The bank_details case of the text handler: it guards on transferAmount and
then reads ctx.callbackQuery.data, which is undefined for a text update, so
the resulting TypeError is caught by the outer catch, which replies with the
generic failure and deletes the seven transfer fields. -/
def bankDetailsStep (s : Session) : TextOutcome :=
  if s.transferAmount.isSome = false then ⟨s, [Msg.amountNotFound], []⟩
  else ⟨clearTransferFields s, [Msg.unexpectedError], []⟩

/-- Customer details step: stores the customer name and advances. -/
def customerDetailsStep (s : Session) (text : String) : TextOutcome :=
  if strTruthy s.sourceOfFunds = false then ⟨s, [Msg.sourceNotSelected], []⟩
  else ⟨{ s with
      customerName := some (jsTrim text)
      transferStep := some TransferStep.customer_email }, [Msg.enterEmailAddr], []⟩

/-- Customer email step: validates the email shape, stores it and advances. -/
def customerEmailStep (s : Session) (text : String) : TextOutcome :=
  if strTruthy s.customerName = false then ⟨s, [Msg.nameNotProvided], []⟩
  else
    let customerEmail := jsTrim text
    if !(isValidEmailShape customerEmail) then ⟨s, [Msg.enterValidEmail], []⟩
    else ⟨{ s with
        customerEmail := some customerEmail
        transferStep := some TransferStep.customer_country }, [Msg.enterCountry], []⟩

/-- Customer country step, the terminal step of the bank withdrawal flow:
stores the country, fetches wallets, assembles the bank withdrawal request
and calls withdrawToBank; the catch block replies with a generic failure
without any 401 handling, and the finally block deletes the seven bank
withdrawal fields on every path that entered the try. -/
def customerCountryStep (env : ApiEnv) (s : Session) (text : String) : TextOutcome :=
  if strTruthy s.customerEmail = false then ⟨s, [Msg.emailNotProvided], []⟩
  else
    let s1 := { s with customerCountry := some (jsTrim text) }
    match env.walletsRes with
    | Except.error _ =>
        ⟨clearBankWithdrawalFields s1, [Msg.bankWithdrawalFailed], [ApiCall.getWallets]⟩
    | Except.ok ws =>
      match ws.find? (fun w => w.isDefault) <|> ws.head? with
      | none => ⟨clearBankWithdrawalFields s1, [Msg.noWalletFound], [ApiCall.getWallets]⟩
      | some _ =>
        if strTruthy s1.sourceOfFunds = false then
          ⟨clearBankWithdrawalFields s1, [Msg.sourceNotSelected], [ApiCall.getWallets]⟩
        else
          let call := ApiCall.withdrawToBank (s1.transferAmount.getD 0)
          match env.withdrawToBankRes with
          | Except.ok _ =>
              ⟨clearBankWithdrawalFields s1, [Msg.bankWithdrawalSuccess],
                [ApiCall.getWallets, call]⟩
          | Except.error _ =>
              ⟨clearBankWithdrawalFields s1, [Msg.bankWithdrawalFailed],
                [ApiCall.getWallets, call]⟩

/-- The full text handler of index.ts: commands are ignored, then the deposit
amount branch, the awaiting-email branch, the awaiting-OTP branch, and
finally the transfer step state machine, in source order. -/
def onText (pf : String → Option ℚ) (env : ApiEnv) (s : Session) (text : String) :
    TextOutcome :=
  if strStartsWith text "/" then ⟨s, [], []⟩
  else if depositGuard s then depositAmountStep pf env s text
  else if boolTruthy s.awaitingEmail then awaitingEmailStep env s text
  else if otpGuard s then awaitingOtpStep env s text
  else
    match s.transferStep with
    | none => ⟨s, [], []⟩
    | some TransferStep.recipient => recipientStep s text
    | some TransferStep.address => addressStep s text
    | some TransferStep.amount => transferAmountStep pf env s text
    | some TransferStep.bank_details => bankDetailsStep s
    | some TransferStep.customer_details => customerDetailsStep s text
    | some TransferStep.customer_email => customerEmailStep s text
    | some TransferStep.customer_country => customerCountryStep env s text
    | some _ => ⟨s, [], []⟩

/-- Amount shown by the history command for a transfer amount v in smallest
units: plain division by ten to the eighth, with no rounding. -/
def historyDisplayAmount (v : ℚ) : ℚ := v / 10 ^ 8

/-- Modelled from the spec: the display rule the claim asserts for history
amounts, namely v divided by ten to the eighth and rounded to two decimals.
This is the comparison target; the code itself is historyDisplayAmount. -/
def specRoundTwoDecimals (q : ℚ) : ℚ := (round (q * 100) : ℤ) / 100

/-- A stored row of the bot_sessions table for one user. -/
structure StoredRow where
  chatId : Nat
  data : Session
  updatedAt : Nat
deriving DecidableEq, Repr

/-- Database commands successfully executed by the middleware. -/
inductive DbOp
| del
| upsert (chatId : Nat) (data : Session) (updatedAt : Nat)
deriving DecidableEq, Repr

/-- Observable outcome of one pass of the session middleware for one user:
the stored row afterwards, the successful database commands, and the list
of sessions the wrapped handler was invoked with, in order. -/
structure MwOutcome where
  store : Option StoredRow
  ops : List DbOp
  handlerRuns : List Session
deriving Repr

/-- PostgresSession from src/middleware/session.ts, for one user row.
The wrapped pipeline is a function from the loaded session to either a new
session or a thrown error. The middleware loads the row (empty session when
absent), stringifies it, runs the handler, and persists only when the
stringified session changed: a delete when it became empty, an upsert with
a fresh CURRENT_TIMESTAMP otherwise. Any error thrown by the load, the
handler or the persist lands in the catch block, which sets the session to
the empty object and runs the handler once more; nothing is persisted on
that path. loadOk and persistOk say whether the corresponding queries
succeed; now is CURRENT_TIMESTAMP. -/
def PostgresSession (row : Option StoredRow) (loadOk : Bool)
    (handler : Session → Except Unit Session) (persistOk : Bool)
    (chatId now : Nat) : MwOutcome :=
  if loadOk = false then
    { store := row, ops := [], handlerRuns := [Session.empty] }
  else
    let loaded := match row with
      | some r => r.data
      | none => Session.empty
    match handler loaded with
    | Except.error _ => { store := row, ops := [], handlerRuns := [loaded, Session.empty] }
    | Except.ok s' =>
      if s' = loaded then { store := row, ops := [], handlerRuns := [loaded] }
      else if s' = Session.empty then
        if persistOk then { store := none, ops := [DbOp.del], handlerRuns := [loaded] }
        else { store := row, ops := [], handlerRuns := [loaded, Session.empty] }
      else
        if persistOk then
          { store := some ⟨chatId, s', now⟩, ops := [DbOp.upsert chatId s' now],
            handlerRuns := [loaded] }
        else { store := row, ops := [], handlerRuns := [loaded, Session.empty] }

/-- Channel name derivation of the notification relay. -/
def channelNameOf (orgId : String) : String := "private-org-" ++ orgId

/-- Handles of one live subscription: the Pusher client and its channel. -/
structure SubEntry where
  pusherId : Nat
  channelId : Nat
deriving DecidableEq, Repr

/-- Lookup in the activeSubscriptions map, modelled as an association list. -/
def mapGet (m : List (String × SubEntry)) (k : String) : Option SubEntry :=
  (m.find? (fun p => p.1 == k)).map (fun p => p.2)

/-- Map.delete: remove the entry with the given key. -/
def mapDelete (m : List (String × SubEntry)) (k : String) : List (String × SubEntry) :=
  m.filter (fun p => !(p.1 == k))

/-- Map.set: replace any entry with the given key. -/
def mapSet (m : List (String × SubEntry)) (k : String) (v : SubEntry) :
    List (String × SubEntry) :=
  mapDelete m k ++ [(k, v)]

/-- Side effects of the relay on Pusher handles. -/
inductive RelayAction
| unsubscribeChannel (channelId : Nat)
| disconnectPusher (pusherId : Nat)
| createClient (pusherId : Nat)
| subscribePusherChannel (channelId : Nat)
deriving DecidableEq, Repr

/-- State of src/services/notifications.ts: the activeSubscriptions map, the
subscriptions created but not yet registered (registration happens in the
subscription_succeeded callback), and a fresh-handle counter. -/
structure RelayState where
  subs : List (String × SubEntry) := []
  pending : List (String × SubEntry) := []
  nextId : Nat := 0
deriving DecidableEq, Repr

/-- subscribeToOrganization: when the map already holds the channel name, the
prior channel is unsubscribed and its client disconnected, once, before the
new client is created and the channel subscribed; the new subscription is
registered only on subscription_succeeded, so it goes to pending here. -/
def subscribeToOrganization (st : RelayState) (orgId : String) :
    RelayState × List RelayAction :=
  let name := channelNameOf orgId
  let teardown := match mapGet st.subs name with
    | some e => [RelayAction.unsubscribeChannel e.channelId,
        RelayAction.disconnectPusher e.pusherId]
    | none => []
  let newEntry : SubEntry := ⟨st.nextId, st.nextId + 1⟩
  ({ subs := mapDelete st.subs name
     pending := mapSet st.pending name newEntry
     nextId := st.nextId + 2 },
    teardown ++ [RelayAction.createClient newEntry.pusherId,
      RelayAction.subscribePusherChannel newEntry.channelId])

/-- The subscription_succeeded handler: registers the pending subscription in
the activeSubscriptions map. -/
def subscriptionSucceeded (st : RelayState) (orgId : String) : RelayState :=
  let name := channelNameOf orgId
  match mapGet st.pending name with
  | some e => { st with subs := mapSet st.subs name e, pending := mapDelete st.pending name }
  | none => st

/-- The subscription_error handler: removes any partial map entry. -/
def subscriptionFailed (st : RelayState) (orgId : String) : RelayState :=
  { st with subs := mapDelete st.subs (channelNameOf orgId) }

/-- unsubscribeFromOrganization: tears down the channel and client and removes
the map entry; a no-op when the channel is absent. -/
def unsubscribeFromOrganization (st : RelayState) (orgId : String) :
    RelayState × List RelayAction :=
  let name := channelNameOf orgId
  match mapGet st.subs name with
  | some e => ({ st with subs := mapDelete st.subs name },
      [RelayAction.unsubscribeChannel e.channelId, RelayAction.disconnectPusher e.pusherId])
  | none => (st, [])

/-- Events that mutate the relay state. -/
inductive RelayEvent
| subscribe (orgId : String)
| succeeded (orgId : String)
| subError (orgId : String)
| unsubscribe (orgId : String)

/-- One relay event applied to the state. -/
def relayStep (st : RelayState) (e : RelayEvent) : RelayState :=
  match e with
  | RelayEvent.subscribe o => (subscribeToOrganization st o).1
  | RelayEvent.succeeded o => subscriptionSucceeded st o
  | RelayEvent.subError o => subscriptionFailed st o
  | RelayEvent.unsubscribe o => (unsubscribeFromOrganization st o).1

/-- The relay state after a sequence of events from process start. -/
def relayRun (es : List RelayEvent) : RelayState :=
  es.foldl relayStep {}

/-- Combined state of one update dispatch: the session and the relay. -/
structure BotUpdateState where
  session : Session
  relay : RelayState
deriving Repr

/-- A Telegraf handler step: new state, replies, and whether it called next. -/
abbrev ChainHandler := BotUpdateState → BotUpdateState × List Msg × Bool

/-- The logout handler registered first, in index.ts: replies and returns
without calling next, clearing the session when logged in. -/
def indexLogoutHandler : ChainHandler := fun st =>
  if st.session.authToken = none then (st, [Msg.notLoggedIn], false)
  else ({ st with session := Session.empty }, [Msg.loggedOut], false)

/-- The logout handler registered inside setupNotifications, after the one in
index.ts: unsubscribes the organization channel, clears the session and
replies; it also never calls next. -/
def notificationsLogoutHandler : ChainHandler := fun st =>
  let relay' := match st.session.organizationId with
    | some o => (unsubscribeFromOrganization st.relay o).1
    | none => st.relay
  ({ session := Session.empty, relay := relay' }, [Msg.loggedOut], false)

/-- Telegraf middleware composition: handlers run in registration order and a
handler that does not call next stops the chain. -/
def runChain : List ChainHandler → BotUpdateState → BotUpdateState × List Msg
| [], st => (st, [])
| h :: rest, st =>
  let r := h st
  if r.2.2 then
    let r' := runChain rest r.1
    (r'.1, r.2.1 ++ r'.2)
  else (r.1, r.2.1)

/-- Processing of a /logout update: index.ts registers its logout command
handler (line 227) before setupNotifications is called (line 1204), which
registers the notifications logout handler, so the chain runs them in that
order. -/
def processLogoutUpdate (st : BotUpdateState) : BotUpdateState × List Msg :=
  runChain [indexLogoutHandler, notificationsLogoutHandler] st

/-- The session loaded by the middleware from an optional stored row. -/
def loadedOf (r : Option StoredRow) : Session :=
  match r with
  | some rr => rr.data
  | none => Session.empty

section Lemmas

theorem clearTransferFields_empty : clearTransferFields Session.empty = Session.empty := rfl

theorem clearDepositFields_empty : clearDepositFields Session.empty = Session.empty := rfl

theorem onText_dispatch_deposit (pf : String → Option ℚ) (env : ApiEnv) (s : Session)
    (text : String) (hcmd : strStartsWith text "/" = false) (hdep : depositGuard s = true) :
    onText pf env s text = depositAmountStep pf env s text := by
  simp [onText, hcmd, hdep]

theorem onText_dispatch_otp (pf : String → Option ℚ) (env : ApiEnv) (s : Session)
    (text : String) (hcmd : strStartsWith text "/" = false) (hdep : depositGuard s = false)
    (hmail : boolTruthy s.awaitingEmail = false) (hotp : otpGuard s = true) :
    onText pf env s text = awaitingOtpStep env s text := by
  simp [onText, hcmd, hdep, hmail, hotp]

theorem onText_dispatch_address (pf : String → Option ℚ) (env : ApiEnv) (s : Session)
    (text : String) (hcmd : strStartsWith text "/" = false) (hdep : depositGuard s = false)
    (hmail : boolTruthy s.awaitingEmail = false) (hotp : otpGuard s = false)
    (hstep : s.transferStep = some TransferStep.address) :
    onText pf env s text = addressStep s text := by
  simp [onText, hcmd, hdep, hmail, hotp, hstep]

theorem onText_dispatch_amount (pf : String → Option ℚ) (env : ApiEnv) (s : Session)
    (text : String) (hcmd : strStartsWith text "/" = false) (hdep : depositGuard s = false)
    (hmail : boolTruthy s.awaitingEmail = false) (hotp : otpGuard s = false)
    (hstep : s.transferStep = some TransferStep.amount) :
    onText pf env s text = transferAmountStep pf env s text := by
  simp [onText, hcmd, hdep, hmail, hotp, hstep]

theorem onText_dispatch_country (pf : String → Option ℚ) (env : ApiEnv) (s : Session)
    (text : String) (hcmd : strStartsWith text "/" = false) (hdep : depositGuard s = false)
    (hmail : boolTruthy s.awaitingEmail = false) (hotp : otpGuard s = false)
    (hstep : s.transferStep = some TransferStep.customer_country) :
    onText pf env s text = customerCountryStep env s text := by
  simp [onText, hcmd, hdep, hmail, hotp, hstep]

end Lemmas

/-- C10: at the wallet-address step of a transfer, for every selected network
an input string (with no surrounding whitespace) is accepted exactly when it
starts with 0x and has length 42; any other input leaves the session
unchanged and re-prompts, with no network-specific format applied. -/
theorem address_step_validation (pf : String → Option ℚ) (env : ApiEnv) (s : Session)
    (text : String) (hcmd : strStartsWith text "/" = false) (hdep : depositGuard s = false)
    (hmail : boolTruthy s.awaitingEmail = false) (hotp : otpGuard s = false)
    (hstep : s.transferStep = some TransferStep.address) (htrim : jsTrim text = text) :
    (isValidWalletAddress text = true ↔
      strStartsWith text "0x" = true ∧ text.data.length = 42) ∧
    (isValidWalletAddress text = false →
      onText pf env s text = ⟨s, [Msg.enterValidWalletAddress], []⟩) ∧
    (isValidWalletAddress text = true →
      onText pf env s text =
        ⟨{ s with transferAddress := some text, transferStep := some TransferStep.amount },
          [Msg.enterAmountPrompt], []⟩) := by
  have hd := onText_dispatch_address pf env s text hcmd hdep hmail hotp hstep
  refine ⟨?_, ?_, ?_⟩
  · simp [isValidWalletAddress]
  · intro hv
    rw [hd]
    simp [addressStep, htrim, hv]
  · intro hv
    rw [hd]
    simp [addressStep, htrim, hv]

/-- Session used by the address-step witness. -/
def addrWitSession : Session := { transferStep := some TransferStep.address }

/-- Witness for address_step_validation at a concrete session and address. -/
theorem address_step_validation_witness :
    (isValidWalletAddress "0xaaaaaaaaaaaaaaaaaaaaaaaaaaaaaaaaaaaaaaaa" = true ↔
      strStartsWith "0xaaaaaaaaaaaaaaaaaaaaaaaaaaaaaaaaaaaaaaaa" "0x" = true ∧
      "0xaaaaaaaaaaaaaaaaaaaaaaaaaaaaaaaaaaaaaaaa".data.length = 42) ∧
    (isValidWalletAddress "0xaaaaaaaaaaaaaaaaaaaaaaaaaaaaaaaaaaaaaaaa" = false →
      onText (fun _ => none) {} addrWitSession
        "0xaaaaaaaaaaaaaaaaaaaaaaaaaaaaaaaaaaaaaaaa" =
        ⟨addrWitSession, [Msg.enterValidWalletAddress], []⟩) ∧
    (isValidWalletAddress "0xaaaaaaaaaaaaaaaaaaaaaaaaaaaaaaaaaaaaaaaa" = true →
      onText (fun _ => none) {} addrWitSession
        "0xaaaaaaaaaaaaaaaaaaaaaaaaaaaaaaaaaaaaaaaa" =
        ⟨{ addrWitSession with
            transferAddress := some "0xaaaaaaaaaaaaaaaaaaaaaaaaaaaaaaaaaaaaaaaa"
            transferStep := some TransferStep.amount },
          [Msg.enterAmountPrompt], []⟩) :=
  address_step_validation (fun _ => none) {} addrWitSession
    "0xaaaaaaaaaaaaaaaaaaaaaaaaaaaaaaaaaaaaaaaa"
    (by decide) (by decide) (by decide) (by decide) rfl (by decide)

/-- C9: while awaiting a one-time code, text that is not exactly six decimal
digits is rejected with a re-prompt, no API call, and an unchanged session;
a well-formed code whose verification fails clears the entire session. -/
theorem otp_validation_and_failure_clears (pf : String → Option ℚ) (env : ApiEnv)
    (s : Session) (text : String) (hcmd : strStartsWith text "/" = false)
    (hdep : depositGuard s = false) (hmail : boolTruthy s.awaitingEmail = false)
    (hotp : otpGuard s = true) :
    (isSixDigitOtp (jsTrim text) = false →
      onText pf env s text = ⟨s, [Msg.enterOtpInvalid], []⟩) ∧
    (isSixDigitOtp (jsTrim text) = true → ∀ e, env.authRes = Except.error e →
      (onText pf env s text).session = Session.empty) := by
  have hd := onText_dispatch_otp pf env s text hcmd hdep hmail hotp
  constructor
  · intro hv
    rw [hd]
    simp [awaitingOtpStep, hv]
  · intro hv e he
    rw [hd]
    simp [awaitingOtpStep, hv, he]

/-- Witness for otp_validation_and_failure_clears at a concrete session. -/
theorem otp_validation_and_failure_clears_witness :
    (isSixDigitOtp (jsTrim "123456") = false →
      onText (fun _ => none) { authRes := Except.error ApiError.unprocessable }
        { awaitingOTP := some true, email := some "u@x.com", sid := some "s1" } "123456" =
        ⟨{ awaitingOTP := some true, email := some "u@x.com", sid := some "s1" },
          [Msg.enterOtpInvalid], []⟩) ∧
    (isSixDigitOtp (jsTrim "123456") = true → ∀ e,
      ({ authRes := Except.error ApiError.unprocessable : ApiEnv }).authRes = Except.error e →
      (onText (fun _ => none) { authRes := Except.error ApiError.unprocessable }
        { awaitingOTP := some true, email := some "u@x.com", sid := some "s1" }
        "123456").session = Session.empty) :=
  otp_validation_and_failure_clears (fun _ => none)
    { authRes := Except.error ApiError.unprocessable }
    { awaitingOTP := some true, email := some "u@x.com", sid := some "s1" } "123456"
    (by decide) (by decide) (by decide) (by decide)

/-- C7: the deposit amount step rejects a when a is nonpositive or below 1
and accepts a of at least 1 (issuing the deposit call); the transfer amount
step rejects a when nonpositive, below 100 or above the current default
wallet balance, and accepts a between 100 and the balance (issuing the
transfer call of the active flow). -/
theorem amount_validation_thresholds :
    (∀ (pf : String → Option ℚ) (env : ApiEnv) (s : Session) (text : String) (a : ℚ),
      strStartsWith text "/" = false → depositGuard s = true → pf (jsTrim text) = some a →
      ((a ≤ 0 → onText pf env s text = ⟨s, [Msg.enterValidAmount], []⟩) ∧
       (0 < a → a < 1 → onText pf env s text = ⟨s, [Msg.minDeposit1], []⟩) ∧
       (1 ≤ a → (onText pf env s text).calls =
          [ApiCall.deposit (a * 10 ^ 8) (s.depositSourceOfFunds.getD "") 1399811149]))) ∧
    (∀ (pf : String → Option ℚ) (env : ApiEnv) (s : Session) (text : String)
        (a bal : ℚ) (ws : List Wallet) (dw : Wallet),
      strStartsWith text "/" = false → depositGuard s = false →
      boolTruthy s.awaitingEmail = false → otpGuard s = false →
      s.transferStep = some TransferStep.amount → pf (jsTrim text) = some a →
      env.walletsRes = Except.ok ws →
      (ws.find? (fun w => w.isDefault) <|> ws.head?) = some dw →
      dw.balance = some bal →
      ((a ≤ 0 → onText pf env s text = ⟨s, [Msg.enterValidAmount], []⟩) ∧
       (0 < a → a < 100 → onText pf env s text = ⟨s, [Msg.minWithdraw100], []⟩) ∧
       (100 ≤ a → bal < a →
          onText pf env s text = ⟨s, [Msg.insufficientBalance], [ApiCall.getWallets]⟩) ∧
       (100 ≤ a → a ≤ bal → s.transferType = some TransferType.email →
          strTruthy s.transferRecipient = true →
          ApiCall.sendToEmail (s.transferRecipient.getD "") (a * 10 ^ 8) ∈
            (onText pf env s text).calls))) := by
  constructor
  · intro pf env s text a hcmd hdep hpf
    have hd := onText_dispatch_deposit pf env s text hcmd hdep
    refine ⟨?_, ?_, ?_⟩
    · intro ha
      rw [hd]
      simp [depositAmountStep, hpf, ha]
    · intro ha0 ha1
      rw [hd]
      have hna : ¬ a ≤ 0 := by linarith
      simp [depositAmountStep, hpf, hna, ha1]
    · intro ha
      rw [hd]
      have hna : ¬ a ≤ 0 := by linarith
      have hna1 : ¬ a < 1 := by linarith
      simp only [depositAmountStep, hpf]
      rw [if_neg hna, if_neg hna1]
      cases hres : env.depositRes with
      | ok u => rfl
      | error e => cases e <;> rfl
  · intro pf env s text a bal ws dw hcmd hdep hmail hotp hstep hpf hws hdw hbal
    have hd := onText_dispatch_amount pf env s text hcmd hdep hmail hotp hstep
    refine ⟨?_, ?_, ?_, ?_⟩
    · intro ha
      rw [hd]
      simp [transferAmountStep, hpf, ha]
    · intro ha0 ha1
      rw [hd]
      have hna : ¬ a ≤ 0 := by linarith
      simp [transferAmountStep, hpf, hna, ha1]
    · intro ha hover
      rw [hd]
      have hna : ¬ a ≤ 0 := by linarith
      have hna1 : ¬ a < 100 := by linarith
      have hgt : a > bal := hover
      simp only [transferAmountStep, hpf]
      rw [if_neg hna, if_neg hna1, hws]
      simp only [hdw, hbal]
      rw [if_pos hgt]
    · intro ha hle hty hrec
      rw [hd]
      have hna : ¬ a ≤ 0 := by linarith
      have hna1 : ¬ a < 100 := by linarith
      have hngt : ¬ a > bal := by linarith
      simp only [transferAmountStep, hpf]
      rw [if_neg hna, if_neg hna1, hws]
      simp only [hdw, hbal]
      rw [if_neg hngt, if_pos (And.intro hty hrec)]
      cases hres : env.sendToEmailRes with
      | ok u => simp
      | error e => cases e <;> simp [transferAmountCatch]

/-- Wallet list used by the amount-validation witness. -/
def amountWitWallets : List Wallet := [⟨"w1", true, some 1000⟩]

/-- Deposit session used by the amount-validation witness. -/
def amountWitDepositSession : Session :=
  { authToken := some "tok", depositStep := some DepositStep.amount,
    depositSourceOfFunds := some "salary" }

/-- Transfer session used by the amount-validation witness. -/
def amountWitTransferSession : Session :=
  { authToken := some "tok", transferType := some TransferType.email,
    transferStep := some TransferStep.amount, transferRecipient := some "r@x.com" }

/-- Environment used by the amount-validation witness. -/
def amountWitEnv : ApiEnv :=
  { walletsRes := Except.ok amountWitWallets, sendToEmailRes := Except.ok (),
    depositRes := Except.ok "url" }

/-- Witness for amount_validation_thresholds at amount 150 and balance 1000. -/
theorem amount_validation_thresholds_witness :
    (((150 : ℚ) ≤ 0 → onText (fun _ => some 150) amountWitEnv amountWitDepositSession "150" =
        ⟨amountWitDepositSession, [Msg.enterValidAmount], []⟩) ∧
     ((0 : ℚ) < 150 → (150 : ℚ) < 1 →
        onText (fun _ => some 150) amountWitEnv amountWitDepositSession "150" =
        ⟨amountWitDepositSession, [Msg.minDeposit1], []⟩) ∧
     ((1 : ℚ) ≤ 150 →
        (onText (fun _ => some 150) amountWitEnv amountWitDepositSession "150").calls =
        [ApiCall.deposit ((150 : ℚ) * 10 ^ 8)
          (amountWitDepositSession.depositSourceOfFunds.getD "") 1399811149])) ∧
    (((150 : ℚ) ≤ 0 → onText (fun _ => some 150) amountWitEnv amountWitTransferSession "150" =
        ⟨amountWitTransferSession, [Msg.enterValidAmount], []⟩) ∧
     ((0 : ℚ) < 150 → (150 : ℚ) < 100 →
        onText (fun _ => some 150) amountWitEnv amountWitTransferSession "150" =
        ⟨amountWitTransferSession, [Msg.minWithdraw100], []⟩) ∧
     ((100 : ℚ) ≤ 150 → (1000 : ℚ) < 150 →
        onText (fun _ => some 150) amountWitEnv amountWitTransferSession "150" =
        ⟨amountWitTransferSession, [Msg.insufficientBalance], [ApiCall.getWallets]⟩) ∧
     ((100 : ℚ) ≤ 150 → (150 : ℚ) ≤ 1000 →
        amountWitTransferSession.transferType = some TransferType.email →
        strTruthy amountWitTransferSession.transferRecipient = true →
        ApiCall.sendToEmail (amountWitTransferSession.transferRecipient.getD "")
          ((150 : ℚ) * 10 ^ 8) ∈
          (onText (fun _ => some 150) amountWitEnv amountWitTransferSession "150").calls)) :=
  ⟨amount_validation_thresholds.1 (fun _ => some 150) amountWitEnv amountWitDepositSession
      "150" 150 (by decide) (by decide) rfl,
   amount_validation_thresholds.2 (fun _ => some 150) amountWitEnv amountWitTransferSession
      "150" 150 1000 amountWitWallets ⟨"w1", true, some 1000⟩
      (by decide) (by decide) (by decide) (by decide) rfl rfl rfl rfl rfl⟩

/-- A nonempty session used by the middleware counterexamples. -/
def mwSessionEx : Session := { authToken := some "tok" }

/-- C3 counterexample: an event whose handler leaves a nonempty session
unchanged issues no database command at all, so the stored row keeps its
old update timestamp 5 instead of being upserted with the current time 9;
the claim as stated predicts an upsert with a refreshed timestamp on every
event. -/
theorem persist_unchanged_no_refresh_cx :
    (PostgresSession (some ⟨7, mwSessionEx, 5⟩) true (fun s => Except.ok s) true 7 9).ops
      = [] ∧
    (PostgresSession (some ⟨7, mwSessionEx, 5⟩) true (fun s => Except.ok s) true 7 9).store
      = some ⟨7, mwSessionEx, 5⟩ ∧
    ¬ (DbOp.upsert 7 mwSessionEx 9 ∈
      (PostgresSession (some ⟨7, mwSessionEx, 5⟩) true (fun s => Except.ok s) true 7 9).ops) := by
  refine ⟨rfl, rfl, ?_⟩
  intro h
  simp [PostgresSession, mwSessionEx] at h

/-- Characterization of the middleware pass when the load succeeds, by case
on the handler result; used by the proofs below. -/
theorem PostgresSession_true (r : Option StoredRow) (h : Session → Except Unit Session)
    (persistOk : Bool) (cid now : Nat) :
    PostgresSession r true h persistOk cid now =
      (match h (loadedOf r) with
       | Except.error _ =>
         { store := r, ops := [], handlerRuns := [loadedOf r, Session.empty] }
       | Except.ok s' =>
         if s' = loadedOf r then { store := r, ops := [], handlerRuns := [loadedOf r] }
         else if s' = Session.empty then
           (if persistOk then { store := none, ops := [DbOp.del], handlerRuns := [loadedOf r] }
            else { store := r, ops := [], handlerRuns := [loadedOf r, Session.empty] })
         else
           (if persistOk then
             { store := some ⟨cid, s', now⟩, ops := [DbOp.upsert cid s' now],
               handlerRuns := [loadedOf r] }
            else { store := r, ops := [], handlerRuns := [loadedOf r, Session.empty] })) := by
  cases r <;> rfl

/-- C3 amended: the persist step runs only when the session data changed
during processing; a changed-to-empty session deletes the row, a changed
nonempty session is upserted with a refreshed timestamp, and an unchanged
session issues no command and keeps the stored row (and its timestamp)
as it was. -/
theorem persist_only_on_change (r : Option StoredRow) (f : Session → Session)
    (cid now : Nat) :
    (f (loadedOf r) = loadedOf r →
      (PostgresSession r true (fun s => Except.ok (f s)) true cid now).ops = [] ∧
      (PostgresSession r true (fun s => Except.ok (f s)) true cid now).store = r) ∧
    (f (loadedOf r) ≠ loadedOf r → f (loadedOf r) = Session.empty →
      (PostgresSession r true (fun s => Except.ok (f s)) true cid now).ops = [DbOp.del] ∧
      (PostgresSession r true (fun s => Except.ok (f s)) true cid now).store = none) ∧
    (f (loadedOf r) ≠ loadedOf r → f (loadedOf r) ≠ Session.empty →
      (PostgresSession r true (fun s => Except.ok (f s)) true cid now).ops =
        [DbOp.upsert cid (f (loadedOf r)) now] ∧
      (PostgresSession r true (fun s => Except.ok (f s)) true cid now).store =
        some ⟨cid, f (loadedOf r), now⟩) := by
  have key := PostgresSession_true r (fun s => Except.ok (f s)) true cid now
  simp only at key
  refine ⟨?_, ?_, ?_⟩
  · intro h1
    rw [key, if_pos h1]
    exact ⟨rfl, rfl⟩
  · intro h1 h2
    rw [key, if_neg h1, if_pos h2]
    exact ⟨rfl, rfl⟩
  · intro h1 h2
    rw [key, if_neg h1, if_neg h2]
    exact ⟨rfl, rfl⟩

/-- Witness for persist_only_on_change: a handler that empties the session. -/
theorem persist_only_on_change_witness :
    ((fun _ => Session.empty : Session → Session) (loadedOf (some ⟨7, mwSessionEx, 5⟩)) =
        loadedOf (some ⟨7, mwSessionEx, 5⟩) →
      (PostgresSession (some ⟨7, mwSessionEx, 5⟩) true
        (fun s => Except.ok ((fun _ => Session.empty : Session → Session) s)) true 7 9).ops
        = [] ∧
      (PostgresSession (some ⟨7, mwSessionEx, 5⟩) true
        (fun s => Except.ok ((fun _ => Session.empty : Session → Session) s)) true 7 9).store
        = some ⟨7, mwSessionEx, 5⟩) ∧
    ((fun _ => Session.empty : Session → Session) (loadedOf (some ⟨7, mwSessionEx, 5⟩)) ≠
        loadedOf (some ⟨7, mwSessionEx, 5⟩) →
      (fun _ => Session.empty : Session → Session) (loadedOf (some ⟨7, mwSessionEx, 5⟩)) =
        Session.empty →
      (PostgresSession (some ⟨7, mwSessionEx, 5⟩) true
        (fun s => Except.ok ((fun _ => Session.empty : Session → Session) s)) true 7 9).ops
        = [DbOp.del] ∧
      (PostgresSession (some ⟨7, mwSessionEx, 5⟩) true
        (fun s => Except.ok ((fun _ => Session.empty : Session → Session) s)) true 7 9).store
        = none) ∧
    ((fun _ => Session.empty : Session → Session) (loadedOf (some ⟨7, mwSessionEx, 5⟩)) ≠
        loadedOf (some ⟨7, mwSessionEx, 5⟩) →
      (fun _ => Session.empty : Session → Session) (loadedOf (some ⟨7, mwSessionEx, 5⟩)) ≠
        Session.empty →
      (PostgresSession (some ⟨7, mwSessionEx, 5⟩) true
        (fun s => Except.ok ((fun _ => Session.empty : Session → Session) s)) true 7 9).ops
        = [DbOp.upsert 7 ((fun _ => Session.empty : Session → Session)
            (loadedOf (some ⟨7, mwSessionEx, 5⟩))) 9] ∧
      (PostgresSession (some ⟨7, mwSessionEx, 5⟩) true
        (fun s => Except.ok ((fun _ => Session.empty : Session → Session) s)) true 7 9).store
        = some ⟨7, (fun _ => Session.empty : Session → Session)
            (loadedOf (some ⟨7, mwSessionEx, 5⟩)), 9⟩) :=
  persist_only_on_change (some ⟨7, mwSessionEx, 5⟩) (fun _ => Session.empty) 7 9

/-- C8 counterexample: when the handler changed the session and the persist
query fails, the catch block resets the session and invokes the wrapped
handler a second time, so the pass-through is not completed exactly once. -/
theorem middleware_double_invoke_cx :
    (PostgresSession (some ⟨7, mwSessionEx, 5⟩) true (fun _ => Except.ok Session.empty)
      false 7 9).handlerRuns.length = 2 ∧
    (PostgresSession (some ⟨7, mwSessionEx, 5⟩) true (fun _ => Except.ok Session.empty)
      false 7 9).handlerRuns.length ≠ 1 := by
  constructor <;> simp [PostgresSession, mwSessionEx, Session.empty]

/-- C8 amended: the wrapped handler is always invoked at least once; a load
error invokes it exactly once with the empty session; when load succeeds it
is invoked exactly once if the handler returns normally and either nothing
changed or the persist query succeeds, and a second time (with the empty
session, from the catch block) when the handler throws or the persist query
fails. -/
theorem middleware_invocation_counts (r : Option StoredRow) (loadOk : Bool)
    (h : Session → Except Unit Session) (persistOk : Bool) (cid now : Nat) :
    1 ≤ (PostgresSession r loadOk h persistOk cid now).handlerRuns.length ∧
    (loadOk = false →
      (PostgresSession r loadOk h persistOk cid now).handlerRuns = [Session.empty]) ∧
    (loadOk = true → h (loadedOf r) = Except.error () →
      (PostgresSession r loadOk h persistOk cid now).handlerRuns =
        [loadedOf r, Session.empty]) ∧
    (loadOk = true → ∀ s', h (loadedOf r) = Except.ok s' →
      (s' = loadedOf r ∨ persistOk = true) →
      (PostgresSession r loadOk h persistOk cid now).handlerRuns = [loadedOf r]) ∧
    (loadOk = true → ∀ s', h (loadedOf r) = Except.ok s' → s' ≠ loadedOf r →
      persistOk = false →
      (PostgresSession r loadOk h persistOk cid now).handlerRuns =
        [loadedOf r, Session.empty]) := by
  refine ⟨?_, ?_, ?_, ?_, ?_⟩
  · cases loadOk with
    | false => simp [PostgresSession]
    | true =>
      rw [PostgresSession_true]
      cases h (loadedOf r) with
      | error u => simp
      | ok s' =>
        dsimp only
        by_cases h1 : s' = loadedOf r
        · rw [if_pos h1]; simp
        · rw [if_neg h1]
          by_cases h2 : s' = Session.empty
          · rw [if_pos h2]; cases persistOk <;> simp
          · rw [if_neg h2]; cases persistOk <;> simp
  · intro hl
    subst hl
    simp [PostgresSession]
  · intro hl hr
    subst hl
    rw [PostgresSession_true, hr]
  · intro hl s' hr hok
    subst hl
    rw [PostgresSession_true, hr]
    dsimp only
    rcases hok with hok | hok
    · rw [if_pos hok]
    · subst hok
      by_cases h1 : s' = loadedOf r
      · rw [if_pos h1]
      · rw [if_neg h1]
        by_cases h2 : s' = Session.empty
        · rw [if_pos h2]; simp
        · rw [if_neg h2]; simp
  · intro hl s' hr hne hpe
    subst hl
    subst hpe
    rw [PostgresSession_true, hr]
    dsimp only
    rw [if_neg hne]
    by_cases h2 : s' = Session.empty
    · rw [if_pos h2]; simp
    · rw [if_neg h2]; simp

/-- Witness for middleware_invocation_counts on a failing load. -/
theorem middleware_invocation_counts_witness :
    1 ≤ (PostgresSession (some ⟨7, mwSessionEx, 5⟩) false (fun s => Except.ok s)
        true 7 9).handlerRuns.length ∧
    (false = false →
      (PostgresSession (some ⟨7, mwSessionEx, 5⟩) false (fun s => Except.ok s)
        true 7 9).handlerRuns = [Session.empty]) ∧
    (false = true → (fun s => Except.ok s : Session → Except Unit Session)
        (loadedOf (some ⟨7, mwSessionEx, 5⟩)) = Except.error () →
      (PostgresSession (some ⟨7, mwSessionEx, 5⟩) false (fun s => Except.ok s)
        true 7 9).handlerRuns = [loadedOf (some ⟨7, mwSessionEx, 5⟩), Session.empty]) ∧
    (false = true → ∀ s', (fun s => Except.ok s : Session → Except Unit Session)
        (loadedOf (some ⟨7, mwSessionEx, 5⟩)) = Except.ok s' →
      (s' = loadedOf (some ⟨7, mwSessionEx, 5⟩) ∨ true = true) →
      (PostgresSession (some ⟨7, mwSessionEx, 5⟩) false (fun s => Except.ok s)
        true 7 9).handlerRuns = [loadedOf (some ⟨7, mwSessionEx, 5⟩)]) ∧
    (false = true → ∀ s', (fun s => Except.ok s : Session → Except Unit Session)
        (loadedOf (some ⟨7, mwSessionEx, 5⟩)) = Except.ok s' →
      s' ≠ loadedOf (some ⟨7, mwSessionEx, 5⟩) → true = false →
      (PostgresSession (some ⟨7, mwSessionEx, 5⟩) false (fun s => Except.ok s)
        true 7 9).handlerRuns = [loadedOf (some ⟨7, mwSessionEx, 5⟩), Session.empty]) :=
  middleware_invocation_counts (some ⟨7, mwSessionEx, 5⟩) false (fun s => Except.ok s)
    true 7 9

/-- Deposit session used by the amount-scaling theorems. -/
def scalingSession : Session :=
  { authToken := some "tok", depositStep := some DepositStep.amount,
    depositSourceOfFunds := some "salary" }

/-- C4 counterexample: an accepted deposit amount of 1.123456789 (nine decimal
places) is sent scaled as 112345678.9, which is not an integer-valued
string; and a history amount of 123456789 smallest units is displayed as
1.23456789, not as the two-decimal rounding 1.23 the claim asserts. -/
theorem amount_scaling_rounding_cx :
    (onText (fun _ => some ((1123456789 : ℚ) / 1000000000))
        { depositRes := Except.ok "url" } scalingSession "1.123456789").calls =
      [ApiCall.deposit ((1123456789 : ℚ) / 10) "salary" 1399811149] ∧
    (¬ ∃ z : ℤ, (1123456789 : ℚ) / 10 = (z : ℚ)) ∧
    historyDisplayAmount 123456789 ≠ specRoundTwoDecimals ((123456789 : ℚ) / 10 ^ 8) := by
  refine ⟨?_, ?_, ?_⟩
  · have hd : onText (fun _ => some ((1123456789 : ℚ) / 1000000000))
        { depositRes := Except.ok "url" } scalingSession "1.123456789" =
        depositAmountStep (fun _ => some ((1123456789 : ℚ) / 1000000000))
          { depositRes := Except.ok "url" } scalingSession "1.123456789" :=
      onText_dispatch_deposit _ _ _ _ (by decide) (by decide)
    rw [hd]
    simp only [depositAmountStep]
    norm_num [scalingSession]
  · rintro ⟨z, hz⟩
    have h10 : (1123456789 : ℚ) = ((10 * z : ℤ) : ℚ) := by
      push_cast
      linarith
    have hint : (1123456789 : ℤ) = 10 * z := by exact_mod_cast h10
    omega
  · rw [show specRoundTwoDecimals ((123456789 : ℚ) / 10 ^ 8) =
        ((round (((123456789 : ℚ) / 10 ^ 8) * 100) : ℤ) : ℚ) / 100 from rfl]
    rw [show round (((123456789 : ℚ) / 10 ^ 8) * 100) = 123 by
      rw [round_eq]; norm_num]
    simp only [historyDisplayAmount]
    norm_num

/-- C4 amended: an accepted deposit amount a is sent to the API as exactly
a times ten to the eighth, which is integer-valued precisely when a is an
integer multiple of ten to the minus eighth; a history amount v is
displayed as exactly v divided by ten to the eighth, with no rounding,
and the two-decimal rounding only coincides when v is an integer multiple
of ten to the sixth. -/
theorem amount_scaling_exact (pf : String → Option ℚ) (env : ApiEnv) (s : Session)
    (text : String) (a : ℚ) (hcmd : strStartsWith text "/" = false)
    (hdep : depositGuard s = true) (hpf : pf (jsTrim text) = some a) (ha : 1 ≤ a) :
    (onText pf env s text).calls =
      [ApiCall.deposit (a * 10 ^ 8) (s.depositSourceOfFunds.getD "") 1399811149] ∧
    (∀ z : ℤ, a = (z : ℚ) / 10 ^ 8 → ∃ zz : ℤ, a * 10 ^ 8 = (zz : ℚ)) ∧
    (∀ v : ℚ, historyDisplayAmount v = v / 10 ^ 8) ∧
    (∀ k : ℤ, historyDisplayAmount ((k : ℚ) * 10 ^ 6) =
      specRoundTwoDecimals (historyDisplayAmount ((k : ℚ) * 10 ^ 6))) := by
  refine ⟨?_, ?_, ?_, ?_⟩
  · have hd := onText_dispatch_deposit pf env s text hcmd hdep
    rw [hd]
    have hna : ¬ a ≤ 0 := by linarith
    have hna1 : ¬ a < 1 := by linarith
    simp only [depositAmountStep, hpf]
    rw [if_neg hna, if_neg hna1]
    cases hres : env.depositRes with
    | ok u => rfl
    | error e => cases e <;> rfl
  · intro z hz
    have h8 : ((10 : ℚ) ^ 8) ≠ 0 := by norm_num
    exact ⟨z, by rw [hz, div_mul_cancel₀ _ h8]⟩
  · intro v
    rfl
  · intro k
    have h1 : historyDisplayAmount ((k : ℚ) * 10 ^ 6) = (k : ℚ) / 100 := by
      unfold historyDisplayAmount
      ring
    rw [h1]
    unfold specRoundTwoDecimals
    have h2 : (k : ℚ) / 100 * 100 = (k : ℚ) := by ring
    rw [h2, round_intCast]

/-- Witness for amount_scaling_exact at the amount 150 equal to
15000000000 smallest units. -/
theorem amount_scaling_exact_witness :
    (onText (fun _ => some 150) { depositRes := Except.ok "url" } scalingSession
        "150").calls =
      [ApiCall.deposit ((150 : ℚ) * 10 ^ 8) (scalingSession.depositSourceOfFunds.getD "")
        1399811149] ∧
    (∀ z : ℤ, (150 : ℚ) = (z : ℚ) / 10 ^ 8 → ∃ zz : ℤ, (150 : ℚ) * 10 ^ 8 = (zz : ℚ)) ∧
    (∀ v : ℚ, historyDisplayAmount v = v / 10 ^ 8) ∧
    (∀ k : ℤ, historyDisplayAmount ((k : ℚ) * 10 ^ 6) =
      specRoundTwoDecimals (historyDisplayAmount ((k : ℚ) * 10 ^ 6))) :=
  amount_scaling_exact (fun _ => some 150) { depositRes := Except.ok "url" }
    scalingSession "150" 150 (by decide) (by decide) rfl (by norm_num)

/-- Session at the customer_country step used by the C1 counterexample. -/
def countrySession : Session :=
  { authToken := some "tok", organizationId := some "org1", email := some "u@x.com",
    transferType := some TransferType.bank,
    transferStep := some TransferStep.customer_country,
    transferAmount := some 15000000000, sourceOfFunds := some "investment",
    customerName := some "Jane Doe", customerEmail := some "jane@x.com" }

/-- Environment whose withdrawToBank call fails with HTTP 401. -/
def countryEnv401 : ApiEnv :=
  { walletsRes := Except.ok [⟨"w1", true, some 1000⟩],
    withdrawToBankRes := Except.error ApiError.unauthorized }

/-- C1 counterexample: at the customer_country step the withdrawToBank call
fails with HTTP 401, yet the resulting session still holds the auth token
(and is not empty), because the catch block of that step has no 401
handling; the claim asserts the session is completely cleared. -/
theorem unauthorized_at_customer_country_cx :
    (onText (fun _ => none) countryEnv401 countrySession "US").calls =
      [ApiCall.getWallets, ApiCall.withdrawToBank 15000000000] ∧
    (onText (fun _ => none) countryEnv401 countrySession "US").session.authToken =
      some "tok" ∧
    (onText (fun _ => none) countryEnv401 countrySession "US").session ≠
      Session.empty := by
  refine ⟨?_, ?_, ?_⟩ <;>
    · have hd : onText (fun _ => none) countryEnv401 countrySession "US" =
          customerCountryStep countryEnv401 countrySession "US" :=
        onText_dispatch_country _ _ _ _ (by decide) (by decide) (by decide) (by decide) rfl
      rw [hd]
      decide

/-- The customer_country handler always ends (when its guard passes) with the
seven bank withdrawal fields deleted from the session that just stored the
submitted country, for every API outcome: the finally block runs on the
success path, on both early returns inside the try, and after the catch. -/
theorem customerCountryStep_session (env : ApiEnv) (s : Session) (text : String)
    (hce : strTruthy s.customerEmail = true) :
    (customerCountryStep env s text).session =
      clearBankWithdrawalFields { s with customerCountry := some (jsTrim text) } := by
  have hcf : ¬ strTruthy s.customerEmail = false := by simp [hce]
  unfold customerCountryStep
  rw [if_neg hcf]
  cases env.walletsRes with
  | error e => rfl
  | ok ws =>
    dsimp only
    cases (ws.find? (fun w => w.isDefault) <|> ws.head?) with
    | none => rfl
    | some dw =>
      dsimp only
      by_cases hsf : strTruthy s.sourceOfFunds = false
      · rw [if_pos hsf]
      · rw [if_neg hsf]
        cases env.withdrawToBankRes with
        | ok u => rfl
        | error e => rfl

/-- C1 amended: an HTTP 401 clears the whole session at the deposit amount
step and at the transfer amount step (whether it comes from getWallets or
from the transfer call of the active branch), but not at the terminal
customer_country step of the bank withdrawal flow, where the handler
leaves the authentication fields untouched for every API outcome and only
the seven bank withdrawal fields are removed. -/
theorem unauthorized_clears_session_except_customer_country :
    (∀ (pf : String → Option ℚ) (env : ApiEnv) (s : Session) (text : String) (a : ℚ),
      strStartsWith text "/" = false → depositGuard s = true →
      pf (jsTrim text) = some a → 1 ≤ a →
      env.depositRes = Except.error ApiError.unauthorized →
      (onText pf env s text).session = Session.empty) ∧
    (∀ (pf : String → Option ℚ) (env : ApiEnv) (s : Session) (text : String) (a : ℚ),
      strStartsWith text "/" = false → depositGuard s = false →
      boolTruthy s.awaitingEmail = false → otpGuard s = false →
      s.transferStep = some TransferStep.amount → pf (jsTrim text) = some a → 100 ≤ a →
      env.walletsRes = Except.error ApiError.unauthorized →
      (onText pf env s text).session = Session.empty) ∧
    (∀ (pf : String → Option ℚ) (env : ApiEnv) (s : Session) (text : String)
        (a bal : ℚ) (ws : List Wallet) (dw : Wallet),
      strStartsWith text "/" = false → depositGuard s = false →
      boolTruthy s.awaitingEmail = false → otpGuard s = false →
      s.transferStep = some TransferStep.amount → pf (jsTrim text) = some a → 100 ≤ a →
      env.walletsRes = Except.ok ws →
      (ws.find? (fun w => w.isDefault) <|> ws.head?) = some dw →
      dw.balance = some bal → a ≤ bal →
      ((s.transferType = some TransferType.email ∧ strTruthy s.transferRecipient = true ∧
          env.sendToEmailRes = Except.error ApiError.unauthorized) ∨
       (s.transferType = some TransferType.wallet ∧ strTruthy s.transferAddress = true ∧
          strTruthy s.network = true ∧ s.commandType = some CommandType.send ∧
          env.sendToWalletRes = Except.error ApiError.unauthorized) ∨
       (s.transferType = some TransferType.wallet ∧ strTruthy s.transferAddress = true ∧
          strTruthy s.network = true ∧ s.commandType = some CommandType.withdraw ∧
          env.withdrawToWalletRes = Except.error ApiError.unauthorized)) →
      (onText pf env s text).session = Session.empty) ∧
    (∀ (pf : String → Option ℚ) (env : ApiEnv) (s : Session) (text : String),
      strStartsWith text "/" = false → depositGuard s = false →
      boolTruthy s.awaitingEmail = false → otpGuard s = false →
      s.transferStep = some TransferStep.customer_country →
      strTruthy s.customerEmail = true →
      (onText pf env s text).session.authToken = s.authToken ∧
      (onText pf env s text).session.organizationId = s.organizationId ∧
      (onText pf env s text).session.email = s.email ∧
      (onText pf env s text).session =
        clearBankWithdrawalFields { s with customerCountry := some (jsTrim text) }) := by
  refine ⟨?_, ?_, ?_, ?_⟩
  · intro pf env s text a hcmd hdep hpf ha hres
    rw [onText_dispatch_deposit pf env s text hcmd hdep]
    have hna : ¬ a ≤ 0 := by linarith
    have hna1 : ¬ a < 1 := by linarith
    simp only [depositAmountStep, hpf]
    rw [if_neg hna, if_neg hna1, hres]
    rfl
  · intro pf env s text a hcmd hdep hmail hotp hstep hpf ha hres
    rw [onText_dispatch_amount pf env s text hcmd hdep hmail hotp hstep]
    have hna : ¬ a ≤ 0 := by linarith
    have hna1 : ¬ a < 100 := by linarith
    simp only [transferAmountStep, hpf]
    rw [if_neg hna, if_neg hna1, hres]
    rfl
  · intro pf env s text a bal ws dw hcmd hdep hmail hotp hstep hpf ha hws hdw hbal hle hbr
    rw [onText_dispatch_amount pf env s text hcmd hdep hmail hotp hstep]
    have hna : ¬ a ≤ 0 := by linarith
    have hna1 : ¬ a < 100 := by linarith
    have hngt : ¬ a > bal := by linarith
    simp only [transferAmountStep, hpf]
    rw [if_neg hna, if_neg hna1, hws]
    simp only [hdw, hbal]
    rw [if_neg hngt]
    rcases hbr with ⟨hty, hrec, hres⟩ | ⟨hty, haddr, hnet, hcmdT, hres⟩ |
        ⟨hty, haddr, hnet, hcmdT, hres⟩
    · rw [if_pos (And.intro hty hrec), hres]
      rfl
    · have hne : ¬ (s.transferType = some TransferType.email ∧
          strTruthy s.transferRecipient = true) := by
        rintro ⟨he, _⟩
        rw [hty] at he
        exact absurd (Option.some.inj he) (by intro hx; cases hx)
      rw [if_neg hne, if_pos (And.intro hty haddr)]
      have hnetf : ¬ strTruthy s.network = false := by simp [hnet]
      rw [if_neg hnetf, if_pos hcmdT, hres]
      rfl
    · have hne : ¬ (s.transferType = some TransferType.email ∧
          strTruthy s.transferRecipient = true) := by
        rintro ⟨he, _⟩
        rw [hty] at he
        exact absurd (Option.some.inj he) (by intro hx; cases hx)
      rw [if_neg hne, if_pos (And.intro hty haddr)]
      have hnetf : ¬ strTruthy s.network = false := by simp [hnet]
      have hnsend : ¬ s.commandType = some CommandType.send := by
        rw [hcmdT]
        intro hx
        cases Option.some.inj hx
      rw [if_neg hnetf, if_neg hnsend, if_pos hcmdT, hres]
      rfl
  · intro pf env s text hcmd hdep hmail hotp hstep hce
    rw [onText_dispatch_country pf env s text hcmd hdep hmail hotp hstep]
    have hsess := customerCountryStep_session env s text hce
    rw [hsess]
    exact ⟨rfl, rfl, rfl, rfl⟩

/-- Environment for the C1 witness whose transfer send fails with 401. -/
def c1WitEnv : ApiEnv :=
  { walletsRes := Except.ok [⟨"w1", true, some 1000⟩],
    sendToEmailRes := Except.error ApiError.unauthorized,
    depositRes := Except.error ApiError.unauthorized }

/-- Transfer session for the C1 witness. -/
def c1WitTransferSession : Session :=
  { authToken := some "tok", transferType := some TransferType.email,
    transferStep := some TransferStep.amount, transferRecipient := some "r@x.com" }

/-- Witness for unauthorized_clears_session_except_customer_country:
concrete 401 outcomes at the deposit, transfer amount and customer_country
steps. -/
theorem unauthorized_clears_session_except_customer_country_witness :
    (onText (fun _ => some 150) c1WitEnv scalingSession "150").session =
      Session.empty ∧
    (onText (fun _ => some 150)
      { walletsRes := Except.error ApiError.unauthorized } c1WitTransferSession
      "150").session = Session.empty ∧
    (onText (fun _ => some 150) c1WitEnv c1WitTransferSession "150").session =
      Session.empty ∧
    ((onText (fun _ => none) countryEnv401 countrySession "US").session.authToken =
        countrySession.authToken ∧
      (onText (fun _ => none) countryEnv401 countrySession "US").session.organizationId =
        countrySession.organizationId ∧
      (onText (fun _ => none) countryEnv401 countrySession "US").session.email =
        countrySession.email ∧
      (onText (fun _ => none) countryEnv401 countrySession "US").session =
        clearBankWithdrawalFields
          { countrySession with customerCountry := some (jsTrim "US") }) :=
  ⟨unauthorized_clears_session_except_customer_country.1 (fun _ => some 150) c1WitEnv
      scalingSession "150" 150 (by decide) (by decide) rfl (by norm_num) rfl,
   unauthorized_clears_session_except_customer_country.2.1 (fun _ => some 150)
      { walletsRes := Except.error ApiError.unauthorized } c1WitTransferSession "150" 150
      (by decide) (by decide) (by decide) (by decide) rfl rfl (by norm_num) rfl,
   unauthorized_clears_session_except_customer_country.2.2.1 (fun _ => some 150) c1WitEnv
      c1WitTransferSession "150" 150 1000 [⟨"w1", true, some 1000⟩] ⟨"w1", true, some 1000⟩
      (by decide) (by decide) (by decide) (by decide) rfl rfl (by norm_num) rfl rfl rfl
      (by norm_num) (Or.inl ⟨rfl, by decide, rfl⟩),
   unauthorized_clears_session_except_customer_country.2.2.2 (fun _ => none) countryEnv401
      countrySession "US" (by decide) (by decide) (by decide) (by decide) rfl (by decide)⟩

/-- Session reaching customer_country with stale wallet-flow fields present,
as left behind by switching from a wallet withdrawal to a bank withdrawal. -/
def c2Session : Session :=
  { countrySession with
    network := some "polygon"
    commandType := some CommandType.withdraw }

/-- Environment whose bank withdrawal succeeds. -/
def c2EnvOk : ApiEnv :=
  { walletsRes := Except.ok [⟨"w1", true, some 1000⟩],
    withdrawToBankRes := Except.ok () }

/-- C2 counterexample: after the terminal customer_country step completes
(one withdrawToBank call, success reply), the session still holds network
and commandType, because the finally block only deletes seven fields; the
claim asserts that every transfer-related field, network and commandType
included, is absent. -/
theorem customer_country_cleanup_misses_fields_cx :
    (onText (fun _ => none) c2EnvOk c2Session "US").calls =
      [ApiCall.getWallets, ApiCall.withdrawToBank 15000000000] ∧
    Msg.bankWithdrawalSuccess ∈ (onText (fun _ => none) c2EnvOk c2Session "US").msgs ∧
    (onText (fun _ => none) c2EnvOk c2Session "US").session.network = some "polygon" ∧
    (onText (fun _ => none) c2EnvOk c2Session "US").session.commandType =
      some CommandType.withdraw := by
  have hd := onText_dispatch_country (fun _ => none) c2EnvOk c2Session "US"
    (by decide) (by decide) (by decide) (by decide) rfl
  refine ⟨?_, ?_, ?_, ?_⟩ <;> rw [hd] <;> decide

/-- C2 amended: on a country submission at the terminal customer_country step
the handler deletes exactly transferType, transferStep, transferAmount,
sourceOfFunds, customerName, customerEmail and customerCountry regardless
of the API outcome, leaves transferRecipient, transferAddress, network and
commandType untouched (so they are absent exactly when the flow never set
them), issues exactly one withdrawToBank call when getWallets succeeds
with a usable wallet and a source of funds is recorded (zero calls when
getWallets fails), and replies with success or failure accordingly. -/
theorem customer_country_terminal_cleanup (pf : String → Option ℚ) (env : ApiEnv)
    (s : Session) (text : String) (hcmd : strStartsWith text "/" = false)
    (hdep : depositGuard s = false) (hmail : boolTruthy s.awaitingEmail = false)
    (hotp : otpGuard s = false)
    (hstep : s.transferStep = some TransferStep.customer_country)
    (hce : strTruthy s.customerEmail = true) :
    (onText pf env s text).session =
      clearBankWithdrawalFields { s with customerCountry := some (jsTrim text) } ∧
    ((onText pf env s text).session.transferRecipient = s.transferRecipient ∧
     (onText pf env s text).session.transferAddress = s.transferAddress ∧
     (onText pf env s text).session.network = s.network ∧
     (onText pf env s text).session.commandType = s.commandType) ∧
    (∀ ws : List Wallet, env.walletsRes = Except.ok ws →
      (ws.find? (fun w => w.isDefault) <|> ws.head?).isSome = true →
      strTruthy s.sourceOfFunds = true →
      ((onText pf env s text).calls =
        [ApiCall.getWallets, ApiCall.withdrawToBank (s.transferAmount.getD 0)] ∧
       (env.withdrawToBankRes = Except.ok () →
        (onText pf env s text).msgs = [Msg.bankWithdrawalSuccess]) ∧
       (∀ e, env.withdrawToBankRes = Except.error e →
        (onText pf env s text).msgs = [Msg.bankWithdrawalFailed]))) ∧
    (∀ e, env.walletsRes = Except.error e →
      (onText pf env s text).calls = [ApiCall.getWallets]) := by
  have hd := onText_dispatch_country pf env s text hcmd hdep hmail hotp hstep
  have hcf : ¬ strTruthy s.customerEmail = false := by simp [hce]
  refine ⟨?_, ?_, ?_, ?_⟩
  · rw [hd]
    exact customerCountryStep_session env s text hce
  · rw [hd, customerCountryStep_session env s text hce]
    exact ⟨rfl, rfl, rfl, rfl⟩
  · intro ws hws hdwx hsf
    rw [hd]
    obtain ⟨dw, hdwo⟩ := Option.isSome_iff_exists.mp hdwx
    have hsfne : ¬ strTruthy s.sourceOfFunds = false := by simp [hsf]
    unfold customerCountryStep
    rw [if_neg hcf, hws]
    dsimp only
    rw [hdwo]
    dsimp only
    rw [if_neg hsfne]
    cases hbr : env.withdrawToBankRes with
    | ok u =>
      refine ⟨rfl, fun _ => rfl, fun e he => ?_⟩
      cases he
    | error e0 =>
      refine ⟨rfl, fun hok => ?_, fun e he => rfl⟩
      cases hok
  · intro e hws
    rw [hd]
    unfold customerCountryStep
    rw [if_neg hcf, hws]

/-- Witness for customer_country_terminal_cleanup at the concrete bank
withdrawal session. -/
theorem customer_country_terminal_cleanup_witness :
    (onText (fun _ => none) c2EnvOk c2Session "US").session =
      clearBankWithdrawalFields { c2Session with customerCountry := some (jsTrim "US") } ∧
    ((onText (fun _ => none) c2EnvOk c2Session "US").session.transferRecipient =
        c2Session.transferRecipient ∧
     (onText (fun _ => none) c2EnvOk c2Session "US").session.transferAddress =
        c2Session.transferAddress ∧
     (onText (fun _ => none) c2EnvOk c2Session "US").session.network =
        c2Session.network ∧
     (onText (fun _ => none) c2EnvOk c2Session "US").session.commandType =
        c2Session.commandType) ∧
    (∀ ws : List Wallet, c2EnvOk.walletsRes = Except.ok ws →
      (ws.find? (fun w => w.isDefault) <|> ws.head?).isSome = true →
      strTruthy c2Session.sourceOfFunds = true →
      ((onText (fun _ => none) c2EnvOk c2Session "US").calls =
        [ApiCall.getWallets, ApiCall.withdrawToBank (c2Session.transferAmount.getD 0)] ∧
       (c2EnvOk.withdrawToBankRes = Except.ok () →
        (onText (fun _ => none) c2EnvOk c2Session "US").msgs =
          [Msg.bankWithdrawalSuccess]) ∧
       (∀ e, c2EnvOk.withdrawToBankRes = Except.error e →
        (onText (fun _ => none) c2EnvOk c2Session "US").msgs =
          [Msg.bankWithdrawalFailed]))) ∧
    (∀ e, c2EnvOk.walletsRes = Except.error e →
      (onText (fun _ => none) c2EnvOk c2Session "US").calls = [ApiCall.getWallets]) :=
  customer_country_terminal_cleanup (fun _ => none) c2EnvOk c2Session "US"
    (by decide) (by decide) (by decide) (by decide) rfl (by decide)

/-- Channel names registered in a subscription map. -/
def mapKeys (m : List (String × SubEntry)) : List String := m.map Prod.fst

theorem keys_mapDelete_sublist (m : List (String × SubEntry)) (k : String) :
    (mapKeys (mapDelete m k)).Sublist (mapKeys m) :=
  List.Sublist.map Prod.fst (List.filter_sublist m)

theorem nodup_keys_mapDelete (m : List (String × SubEntry)) (k : String)
    (h : (mapKeys m).Nodup) : (mapKeys (mapDelete m k)).Nodup :=
  h.sublist (keys_mapDelete_sublist m k)

theorem not_mem_keys_mapDelete (m : List (String × SubEntry)) (k : String) :
    k ∉ mapKeys (mapDelete m k) := by
  intro hmem
  rcases List.mem_map.mp hmem with ⟨p, hp, hfst⟩
  rcases List.mem_filter.mp hp with ⟨_, hcond⟩
  have hfalse : (p.1 == k) = false := by simpa using hcond
  rw [hfst] at hfalse
  simp at hfalse

theorem nodup_keys_mapSet (m : List (String × SubEntry)) (k : String) (v : SubEntry)
    (h : (mapKeys m).Nodup) : (mapKeys (mapSet m k v)).Nodup := by
  have hd := nodup_keys_mapDelete m k h
  have hnm := not_mem_keys_mapDelete m k
  show (List.map Prod.fst (mapDelete m k ++ [(k, v)])).Nodup
  rw [List.map_append]
  refine List.Nodup.append hd (List.nodup_singleton k) ?_
  intro a ha hb
  have hak : a = k := by simpa using hb
  subst hak
  exact hnm ha

theorem relayStep_nodup (st : RelayState) (e : RelayEvent)
    (h : (mapKeys st.subs).Nodup) : (mapKeys (relayStep st e).subs).Nodup := by
  cases e with
  | subscribe o => exact nodup_keys_mapDelete st.subs (channelNameOf o) h
  | succeeded o =>
    dsimp only [relayStep, subscriptionSucceeded]
    cases hg : mapGet st.pending (channelNameOf o) with
    | none => exact h
    | some entry => exact nodup_keys_mapSet st.subs (channelNameOf o) entry h
  | subError o => exact nodup_keys_mapDelete st.subs (channelNameOf o) h
  | unsubscribe o =>
    dsimp only [relayStep, unsubscribeFromOrganization]
    cases hg : mapGet st.subs (channelNameOf o) with
    | none => exact h
    | some entry => exact nodup_keys_mapDelete st.subs (channelNameOf o) h

theorem relayFold_nodup (es : List RelayEvent) : ∀ st : RelayState,
    (mapKeys st.subs).Nodup → (mapKeys (es.foldl relayStep st).subs).Nodup := by
  induction es with
  | nil => intro st h; simpa using h
  | cons e rest ih =>
    intro st h
    exact ih (relayStep st e) (relayStep_nodup st e h)

/-- C5: after any sequence of relay events from process start, each
organization-derived channel name occurs at most once in the active
subscription map; and a subscribe call for an organization whose channel is
already registered emits exactly one teardown of that channel and its
client, before the new client is created and the channel subscribed. -/
theorem subscription_unique_and_teardown_once :
    (∀ (es : List RelayEvent) (k : String),
      (mapKeys (relayRun es).subs).count k ≤ 1) ∧
    (∀ (st : RelayState) (o : String) (e : SubEntry),
      mapGet st.subs (channelNameOf o) = some e →
      (subscribeToOrganization st o).2 =
        [RelayAction.unsubscribeChannel e.channelId,
         RelayAction.disconnectPusher e.pusherId,
         RelayAction.createClient st.nextId,
         RelayAction.subscribePusherChannel (st.nextId + 1)]) := by
  constructor
  · intro es k
    have hnd : (mapKeys (relayRun es).subs).Nodup :=
      relayFold_nodup es {} (by simp [mapKeys])
    exact List.nodup_iff_count_le_one.mp hnd k
  · intro st o e hget
    dsimp only [subscribeToOrganization]
    rw [hget]
    rfl

/-- Relay state with one registered subscription, for the C5 witness. -/
def relayWitState : RelayState :=
  { subs := [("private-org-org1", ⟨0, 1⟩)], pending := [], nextId := 2 }

/-- Witness for subscription_unique_and_teardown_once: a concrete event trace
and a concrete re-subscribe against an existing channel. -/
theorem subscription_unique_and_teardown_once_witness :
    (mapKeys (relayRun [RelayEvent.subscribe "org1", RelayEvent.succeeded "org1",
        RelayEvent.subscribe "org1"]).subs).count "private-org-org1" ≤ 1 ∧
    (subscribeToOrganization relayWitState "org1").2 =
      [RelayAction.unsubscribeChannel 1, RelayAction.disconnectPusher 0,
       RelayAction.createClient 2, RelayAction.subscribePusherChannel 3] :=
  ⟨subscription_unique_and_teardown_once.1
      [RelayEvent.subscribe "org1", RelayEvent.succeeded "org1",
        RelayEvent.subscribe "org1"] "private-org-org1",
   subscription_unique_and_teardown_once.2 relayWitState "org1" ⟨0, 1⟩ (by decide)⟩

/-- C6: the claim is that processing /logout removes the organization channel
from the subscription map. The code registers the index.ts logout handler
first; it replies without calling next, so the logout handler of
setupNotifications (whose comment says it unsubscribes on logout) never
runs, and the subscription survives: the map still holds the channel entry
after the update, while the shadowed notifications handler would have
removed it. -/
theorem logout_leaves_subscription_active :
    (processLogoutUpdate
      { session := { authToken := some "tok", organizationId := some "org1" },
        relay := relayWitState }).1.relay.subs = [("private-org-org1", ⟨0, 1⟩)] ∧
    mapGet (processLogoutUpdate
      { session := { authToken := some "tok", organizationId := some "org1" },
        relay := relayWitState }).1.relay.subs (channelNameOf "org1") = some ⟨0, 1⟩ ∧
    (notificationsLogoutHandler
      { session := { authToken := some "tok", organizationId := some "org1" },
        relay := relayWitState }).1.relay.subs = [] := by
  refine ⟨?_, ?_, ?_⟩ <;> decide

end CopperxBot
